import Mathlib

/-!
Verification development for the multi-agent blog-post pipeline
(`multi_agents.py` / `app.py`).

The Python sources are shallowly embedded:

* `WState` models the Python `dict` stored as workflow state: an
  association list of string keys and string values.  `dictSet` models
  `d[k] = v` (overwrite the existing binding, or append a fresh one),
  `dictLookup` models `k in d` lookup and `dictGet` models
  `d.get(k, "")`.
* The three state-recording coroutines `record_search_results`,
  `write_post` and `improve_seo` become pure functions from the prior
  state and the payload to the updated state paired with the returned
  confirmation string (the `async with ctx.store.edit_state` block is a
  serialized read-modify-write of the shared dict).
* `FunctionAgent` keeps the fields of the llama-index constructor that
  the repository sets: name, description, system prompt, tool names and
  the `can_handoff_to` list.  `initialize_workflow` builds the same
  three agents and the same `AgentWorkflow` record.
* `RunResult` models the value returned by `agent_workflow.run(...)`,
  whose shape the repository does not trust: it may or may not expose a
  `state` dict (`state?`), its `response` attribute may be absent,
  present but not a `str`, or a `str` (`ResponseAttr`), and `strRepr`
  is the result of Python's `str(result)`.
* `extract_output` is the extraction logic in the body of
  `execute_workflow._run` after the `await`; `execute_workflow` itself
  is parameterized by the orchestration engine's run function
  (`run : String → RunResult`), which this repository treats as a black
  box.
-/

/-- Workflow state: a Python dict with string keys and string values,
modelled as an association list (keys unique in every state the
program builds). -/
abbrev WState : Type := List (String × String)

/-- Python `d[k] = v`: overwrite the first binding of `k`, or append a
fresh binding when `k` is absent. -/
def dictSet : WState → String → String → WState
  | [], k, v => [(k, v)]
  | (k', v') :: rest, k, v =>
    if k' = k then (k, v) :: rest else (k', v') :: dictSet rest k v

/-- Python `k in d` style lookup: first binding of `k`, if any. -/
def dictLookup : WState → String → Option String
  | [], _ => none
  | (k', v') :: rest, k => if k' = k then some v' else dictLookup rest k

/-- Python `d.get(k, "")`. -/
def dictGet (st : WState) (k : String) : String :=
  match dictLookup st k with
  | some v => v
  | none => ""

/-- Python's `str(...)` rendering of the state dict, as in the f-string
of the diagnostic branch (values are plain text in this program, so no
inner escaping arises). -/
def dictRepr (st : WState) : String :=
  "\x7b" ++
    String.intercalate ", "
      (st.map (fun kv => "\x27" ++ kv.1 ++ "\x27: \x27" ++ kv.2 ++ "\x27")) ++
  "\x7d"

-- ---------- Tools (multi_agents.py, lines 35-53) ----------

/-- `record_search_results(ctx, search_results)`: writes the payload to
the `search_results` key and returns the confirmation string. -/
def record_search_results (st : WState) (search_results : String) :
    WState × String :=
  (dictSet st "search_results" search_results, "Search results recorded.")

/-- `write_post(ctx, post_article_content)`: writes the payload to the
`post_article_content` key and returns the confirmation string. -/
def write_post (st : WState) (post_article_content : String) :
    WState × String :=
  (dictSet st "post_article_content" post_article_content,
   "Post article written.")

/-- `improve_seo(ctx, improved_post_article)`: writes the payload to the
`improved_post_article` key and returns the confirmation string. -/
def improve_seo (st : WState) (improved_post_article : String) :
    WState × String :=
  (dictSet st "improved_post_article" improved_post_article,
   "SEO improved and final article stored.")

-- ---------- Agents and workflow (multi_agents.py, lines 57-134) ----------

/-- The fields of `FunctionAgent(...)` that `initialize_workflow` sets
(the shared `llm` handle is external and carries no data the claims
touch). -/
structure FunctionAgent where
  name : String
  description : String
  system_prompt : String
  tools : List String
  can_handoff_to : List String
deriving DecidableEq, Repr

/-- The `AgentWorkflow(...)` record built by `initialize_workflow`. -/
structure AgentWorkflow where
  agents : List FunctionAgent
  root_agent : String
  initial_state : WState
deriving Repr

/-- The `search_agent` of `initialize_workflow`. -/
def search_agent : FunctionAgent :=
  { name := "SearchAgent"
    description := "Search the web for relevant information."
    system_prompt :=
      "You are a search agent that finds relevant information about the given topic. " ++
      "After collecting notes, hand off to WritePostAgent."
    tools := ["web_search", "record_search_results"]
    can_handoff_to := ["WritePostAgent"] }

/-- The `write_post_agent` of `initialize_workflow`. -/
def write_post_agent : FunctionAgent :=
  { name := "WritePostAgent"
    description := "Generate a blog post based on search results."
    system_prompt :=
      "You are a writer agent that drafts a blog post in markdown format. " ++
      "When done, hand off to SeoReviewerAgent for optimization."
    tools := ["write_post"]
    can_handoff_to := ["SeoReviewerAgent"] }

/-- The `seo_agent` of `initialize_workflow`. -/
def seo_agent : FunctionAgent :=
  { name := "SeoReviewerAgent"
    description := "Review and improve SEO."
    system_prompt :=
      "You are an SEO reviewer agent that improves the article\x27s structure and SEO quality."
    tools := ["improve_seo"]
    can_handoff_to := [] }

/-- `initialize_workflow()`: the three agents, the root agent name and
the initial state, exactly as constructed in the source. -/
def initialize_workflow : AgentWorkflow :=
  { agents := [search_agent, write_post_agent, seo_agent]
    root_agent := search_agent.name
    initial_state :=
      [("search_results", ""),
       ("post_article_content", ""),
       ("improved_post_article", "")] }

/-- `next((a for a in agents if a.name == n), None)`: look an agent up
by name in a workflow. -/
def findAgent (wf : AgentWorkflow) (n : String) : Option FunctionAgent :=
  wf.agents.find? (fun a => a.name = n)

-- ---------- Run results and the execution shim (lines 137-172) ----------

/-- The shape of the `response` attribute of a run result: absent
(`hasattr` is false), present but not a `str`, or a `str`. -/
inductive ResponseAttr where
  | absent
  | nonStr
  | str (s : String)
deriving DecidableEq, Repr

/-- The value returned by `agent_workflow.run(...)`, whose shape is not
guaranteed: an optional `state` dict, a `response` attribute of unknown
shape, and the rendering `str(result)`. -/
structure RunResult where
  state? : Option WState
  response : ResponseAttr
  strRepr : String
deriving Repr

/-- `result.state.get("improved_post_article", "")` guarded by
`hasattr(result, "state")`, defaulting to the initial `""`. -/
def improvedOf (r : RunResult) : String :=
  match r.state? with
  | some st => dictGet st "improved_post_article"
  | none => ""

/-- `result.state.get("post_article_content", "")` under the same
guard. -/
def postOf (r : RunResult) : String :=
  match r.state? with
  | some st => dictGet st "post_article_content"
  | none => ""

/-- `result.state.get("search_results", "")` under the same guard. -/
def searchOf (r : RunResult) : String :=
  match r.state? with
  | some st => dictGet st "search_results"
  | none => ""

/-- `fallback_output`: `result.response` when present and a `str`,
otherwise `str(result)`. -/
def fallbackOf (r : RunResult) : String :=
  match r.response with
  | .str s => s
  | _ => r.strRepr

/-- The diagnostic f-string of the final `else` branch:
`No article text found.` plus debug info rendering
`getattr(result, "state", \x7b\x7d)` and the extracted search results. -/
def diagnosticOf (r : RunResult) : String :=
  "No article text found.\n\nDebug info:\nState: " ++
    dictRepr (match r.state? with | some st => st | none => []) ++
    "\nSearch: " ++ searchOf r

/-- The extraction logic of `execute_workflow._run` after the awaited
run: the prioritized fallback chain over the run result (Python string
truthiness is non-emptiness). -/
def extract_output (result : RunResult) : String :=
  let improved_article := improvedOf result
  let post_article := postOf result
  let fallback_output := fallbackOf result
  if improved_article ≠ "" then improved_article
  else if post_article ≠ "" then post_article
  else if fallback_output ≠ "" then fallback_output
  else diagnosticOf result

/-- `execute_workflow(agent_workflow, user_query)`, parameterized by the
engine's run function: wraps the query in the fixed user-message
template, runs, and extracts. -/
def execute_workflow (run : String → RunResult) (user_query : String) :
    String :=
  extract_output
    (run ("Write a detailed, markdown-formatted blog post about " ++ user_query))

-- ---------- The hand-off step relation (spec section 4.3) ----------

/-- The agent states of the pipeline state machine:
SearchAgent, WritePostAgent, SeoReviewerAgent, Terminated. -/
inductive AgentState where
  | search
  | write
  | seo
  | terminated
deriving DecidableEq, Repr, Fintype

/-- The agent name of a non-terminal state. -/
def stateName : AgentState → Option String
  | .search => some "SearchAgent"
  | .write => some "WritePostAgent"
  | .seo => some "SeoReviewerAgent"
  | .terminated => none

/-- Pipeline stage index, for the no-return-to-earlier-stage property. -/
def stage : AgentState → Nat
  | .search => 0
  | .write => 1
  | .seo => 2
  | .terminated => 3

/-- The hand-off step induced by a workflow's declared
`can_handoff_to` sets: an agent may step to a named state in its set,
and to `terminated` exactly when its set is empty; `terminated` has no
successors. -/
def stepB (wf : AgentWorkflow) (s t : AgentState) : Bool :=
  match stateName s with
  | none => false
  | some n =>
    match findAgent wf n with
    | none => false
    | some a =>
      match stateName t with
      | some m => a.can_handoff_to.contains m
      | none => a.can_handoff_to.isEmpty

/-- The step relation of the workflow built by `initialize_workflow`. -/
def Step (s t : AgentState) : Prop :=
  stepB initialize_workflow s t = true

instance (s t : AgentState) : Decidable (Step s t) :=
  inferInstanceAs (Decidable (stepB initialize_workflow s t = true))

/-- Substring containment, modelling Python's `sub in s`. -/
def ContainsSubstr (s sub : String) : Prop :=
  sub.data <:+: s.data

instance (s sub : String) : Decidable (ContainsSubstr s sub) :=
  inferInstanceAs (Decidable (sub.data <:+: s.data))

-- ---------- Helper lemmas ----------

theorem dictLookup_dictSet_same (st : WState) (k v : String) :
    dictLookup (dictSet st k v) k = some v := by
  induction st with
  | nil => simp [dictSet, dictLookup]
  | cons kv rest ih =>
    obtain ⟨k', v'⟩ := kv
    by_cases hk : k' = k
    · simp [dictSet, hk, dictLookup]
    · simp [dictSet, hk, dictLookup, ih]

theorem dictLookup_dictSet_ne (st : WState) {k k' : String} (v : String)
    (h : k' ≠ k) : dictLookup (dictSet st k v) k' = dictLookup st k' := by
  induction st with
  | nil => simp [dictSet, dictLookup, Ne.symm h]
  | cons kv rest ih =>
    obtain ⟨k0, v0⟩ := kv
    by_cases hk : k0 = k
    · subst hk
      simp [dictSet, dictLookup, h, Ne.symm h]
    · simp [dictSet, hk, dictLookup, ih]

theorem dictGet_dictSet_same (st : WState) (k v : String) :
    dictGet (dictSet st k v) k = v := by
  simp [dictGet, dictLookup_dictSet_same]

theorem step_search_succ {t : AgentState} (h : Step AgentState.search t) :
    t = AgentState.write := by
  cases t <;> revert h <;> decide

theorem step_write_succ {t : AgentState} (h : Step AgentState.write t) :
    t = AgentState.seo := by
  cases t <;> revert h <;> decide

theorem step_seo_succ {t : AgentState} (h : Step AgentState.seo t) :
    t = AgentState.terminated := by
  cases t <;> revert h <;> decide

theorem step_terminated_none {t : AgentState}
    (h : Step AgentState.terminated t) : False := by
  cases t <;> revert h <;> decide

-- ---------- Claim theorems ----------

/-- C1: for every run result, the execution shim's extraction follows
this exact priority: the `improved_post_article` field if non-empty;
else the `post_article_content` field if non-empty; else the run's
final (non-empty string) response. -/
theorem extract_output_priority (r : RunResult) (c : String) :
    (improvedOf r ≠ "" → extract_output r = improvedOf r) ∧
    (improvedOf r = "" → postOf r ≠ "" → extract_output r = postOf r) ∧
    (improvedOf r = "" → postOf r = "" → r.response = ResponseAttr.str c →
      c ≠ "" → extract_output r = c) := by
  refine ⟨fun h1 => ?_, fun h1 h2 => ?_, fun h1 h2 h3 h4 => ?_⟩
  · simp [extract_output, h1]
  · simp [extract_output, h1, h2]
  · have hf : fallbackOf r = c := by simp [fallbackOf, h3]
    simp [extract_output, h1, h2, hf, h4]

/-- C1 witness: with `improved_post_article = "A"`,
`post_article_content = "B"` and response `"C"` the shim returns `"A"`;
with improved empty it returns `"B"`; with both empty it returns
`"C"`. -/
theorem extract_output_priority_witness :
    extract_output
      ⟨some [("search_results", ""), ("post_article_content", "B"),
             ("improved_post_article", "A")], ResponseAttr.str "C", "Z"⟩ = "A" ∧
    extract_output
      ⟨some [("search_results", ""), ("post_article_content", "B"),
             ("improved_post_article", "")], ResponseAttr.str "C", "Z"⟩ = "B" ∧
    extract_output
      ⟨some [("search_results", ""), ("post_article_content", ""),
             ("improved_post_article", "")], ResponseAttr.str "C", "Z"⟩ = "C" := by
  refine ⟨?_, ?_, ?_⟩
  · exact ((extract_output_priority _ "C").1 (by decide)).trans (by decide)
  · exact ((extract_output_priority _ "C").2.1 (by decide) (by decide)).trans
      (by decide)
  · exact (extract_output_priority _ "C").2.2 (by decide) (by decide) rfl
      (by decide)

/-- C2 counterexample: a run result whose state fields are all empty and
whose `response` attribute is absent, but whose `str(result)` rendering
is the non-empty string `"X"`: the shim returns `"X"`, which does not
contain `"No article text found."`. -/
theorem extract_output_no_response_counterexample :
    improvedOf ⟨some [("search_results", ""), ("post_article_content", ""),
        ("improved_post_article", "")], ResponseAttr.absent, "X"⟩ = "" ∧
    postOf ⟨some [("search_results", ""), ("post_article_content", ""),
        ("improved_post_article", "")], ResponseAttr.absent, "X"⟩ = "" ∧
    extract_output ⟨some [("search_results", ""), ("post_article_content", ""),
        ("improved_post_article", "")], ResponseAttr.absent, "X"⟩ = "X" ∧
    ¬ ContainsSubstr
        (extract_output ⟨some [("search_results", ""),
            ("post_article_content", ""), ("improved_post_article", "")],
          ResponseAttr.absent, "X"⟩)
        "No article text found." := by decide

/-- C2 amended: when the improved and draft state fields are empty and
the fallback output (the response when it is a string, otherwise
`str(result)`) is also empty, the shim returns the diagnostic string,
which contains the literal substring `"No article text found."`. -/
theorem extract_output_diagnostic (r : RunResult)
    (h1 : improvedOf r = "") (h2 : postOf r = "")
    (h3 : fallbackOf r = "") :
    extract_output r = diagnosticOf r ∧
    ContainsSubstr (extract_output r) "No article text found." := by
  have he : extract_output r = diagnosticOf r := by
    simp [extract_output, h1, h2, h3]
  refine ⟨he, ?_⟩
  rw [he]
  unfold ContainsSubstr diagnosticOf
  refine ⟨[], ?_⟩
  refine ⟨(("\n\nDebug info:\nState: " ++
      dictRepr (match r.state? with | some st => st | none => []) ++
      "\nSearch: " ++ searchOf r)).data, ?_⟩
  simp [String.data_append]

/-- C2 amended witness: all fields empty, no response, empty
`str(result)`: the diagnostic is returned and contains the marker. -/
theorem extract_output_diagnostic_witness :
    extract_output ⟨some [("search_results", "S"), ("post_article_content", ""),
        ("improved_post_article", "")], ResponseAttr.absent, ""⟩ =
      diagnosticOf ⟨some [("search_results", "S"), ("post_article_content", ""),
        ("improved_post_article", "")], ResponseAttr.absent, ""⟩ ∧
    ContainsSubstr
      (extract_output ⟨some [("search_results", "S"),
          ("post_article_content", ""), ("improved_post_article", "")],
        ResponseAttr.absent, ""⟩)
      "No article text found." :=
  extract_output_diagnostic _ (by decide) (by decide) (by decide)

/-- C3: the workflow built by `initialize_workflow` starts with a state
in which each of the three keys is bound and equal to the empty
string (and no other key is bound). -/
theorem initial_state_empty :
    dictLookup initialize_workflow.initial_state "search_results" = some "" ∧
    dictLookup initialize_workflow.initial_state "post_article_content" =
      some "" ∧
    dictLookup initialize_workflow.initial_state "improved_post_article" =
      some "" ∧
    initialize_workflow.initial_state.map Prod.fst =
      ["search_results", "post_article_content", "improved_post_article"] := by
  decide

/-- C4: for every prior state and payload, each state-recording tool
sets exactly its corresponding key to exactly the payload (full
overwrite, regardless of the prior value) and returns its fixed
confirmation string. -/
theorem tools_overwrite (st : WState) (p : String) :
    dictGet (record_search_results st p).1 "search_results" = p ∧
    (record_search_results st p).2 = "Search results recorded." ∧
    dictGet (write_post st p).1 "post_article_content" = p ∧
    (write_post st p).2 = "Post article written." ∧
    dictGet (improve_seo st p).1 "improved_post_article" = p ∧
    (improve_seo st p).2 = "SEO improved and final article stored." :=
  ⟨dictGet_dictSet_same st _ p, rfl,
   dictGet_dictSet_same st _ p, rfl,
   dictGet_dictSet_same st _ p, rfl⟩

/-- C5: in the workflow built by `initialize_workflow`, SearchAgent may
hand off exactly to WritePostAgent, WritePostAgent exactly to
SeoReviewerAgent, and SeoReviewerAgent to nobody (terminal). -/
theorem handoff_sets :
    (findAgent initialize_workflow "SearchAgent").map
      FunctionAgent.can_handoff_to = some ["WritePostAgent"] ∧
    (findAgent initialize_workflow "WritePostAgent").map
      FunctionAgent.can_handoff_to = some ["SeoReviewerAgent"] ∧
    (findAgent initialize_workflow "SeoReviewerAgent").map
      FunctionAgent.can_handoff_to = some ([] : List String) := by
  decide

/-- C6: the hand-off step relation induced by the declared sets, with
root SearchAgent, never moves to an earlier pipeline stage (each step
strictly increases the stage index), and every run from the root is a
prefix of Search → Write → SEO → Terminated, so each agent is
activated at most once and in order. -/
theorem pipeline_linear :
    initialize_workflow.root_agent = "SearchAgent" ∧
    (∀ s t : AgentState, Step s t → stage t = stage s + 1) ∧
    (∀ l : List AgentState, List.Chain Step AgentState.search l →
      l = List.take l.length
        [AgentState.write, AgentState.seo, AgentState.terminated]) := by
  refine ⟨rfl, by decide, ?_⟩
  intro l h
  rcases l with _ | ⟨a, l⟩
  · rfl
  cases h with
  | cons h1 h2 =>
    obtain rfl := step_search_succ h1
    rcases l with _ | ⟨b, l⟩
    · rfl
    cases h2 with
    | cons h1 h2 =>
      obtain rfl := step_write_succ h1
      rcases l with _ | ⟨c, l⟩
      · rfl
      cases h2 with
      | cons h1 h2 =>
        obtain rfl := step_seo_succ h1
        rcases l with _ | ⟨d, l⟩
        · rfl
        cases h2 with
        | cons h1 h2 => exact absurd h1 step_terminated_none

/-- C6 witness: the canonical full run Search → Write → SEO →
Terminated is a chain of the step relation and is exactly the
predicted prefix; the first step raises the stage index by one. -/
theorem pipeline_linear_witness :
    stage AgentState.write = stage AgentState.search + 1 ∧
    [AgentState.write, AgentState.seo, AgentState.terminated] =
      List.take 3 [AgentState.write, AgentState.seo, AgentState.terminated] :=
  ⟨pipeline_linear.2.1 AgentState.search AgentState.write (by decide),
   pipeline_linear.2.2
     [AgentState.write, AgentState.seo, AgentState.terminated]
     (.cons (by decide) (.cons (by decide) (.cons (by decide) .nil)))⟩

/-- C7: the extraction logic is total: for every run result shape it
returns one of the four strings — the improved article, the draft
article, the fallback output, or the diagnostic message. -/
theorem extract_output_total (r : RunResult) :
    extract_output r = improvedOf r ∨ extract_output r = postOf r ∨
    extract_output r = fallbackOf r ∨ extract_output r = diagnosticOf r := by
  unfold extract_output
  dsimp only
  split_ifs <;> simp

/-- C8: for every prior state and payload, each state-recording tool
leaves every key other than its own unchanged. -/
theorem tools_frame (st : WState) (p k : String) :
    (k ≠ "search_results" →
      dictLookup (record_search_results st p).1 k = dictLookup st k) ∧
    (k ≠ "post_article_content" →
      dictLookup (write_post st p).1 k = dictLookup st k) ∧
    (k ≠ "improved_post_article" →
      dictLookup (improve_seo st p).1 k = dictLookup st k) :=
  ⟨fun h => dictLookup_dictSet_ne st p h,
   fun h => dictLookup_dictSet_ne st p h,
   fun h => dictLookup_dictSet_ne st p h⟩

/-- C8 witness: writing each payload leaves an unrelated key `"topic"`
bound to its old value. -/
theorem tools_frame_witness :
    dictLookup (record_search_results [("topic", "T")] "p").1 "topic" =
      dictLookup [("topic", "T")] "topic" ∧
    dictLookup (write_post [("topic", "T")] "p").1 "topic" =
      dictLookup [("topic", "T")] "topic" ∧
    dictLookup (improve_seo [("topic", "T")] "p").1 "topic" =
      dictLookup [("topic", "T")] "topic" :=
  ⟨(tools_frame [("topic", "T")] "p" "topic").1 (by decide),
   (tools_frame [("topic", "T")] "p" "topic").2.1 (by decide),
   (tools_frame [("topic", "T")] "p" "topic").2.2 (by decide)⟩

/-- C9: for every run function and topic, the execution shim invokes the
run with the user message being exactly the fixed template followed by
the topic, and this wrapped message is never the raw topic itself. -/
theorem execute_workflow_user_msg (run : String → RunResult) (t : String) :
    execute_workflow run t =
      extract_output
        (run ("Write a detailed, markdown-formatted blog post about " ++ t)) ∧
    "Write a detailed, markdown-formatted blog post about " ++ t ≠ t := by
  refine ⟨rfl, fun h => ?_⟩
  have hl := congrArg String.length h
  rw [String.length_append] at hl
  have hm : ("Write a detailed, markdown-formatted blog post about ").length ≠ 0 := by
    decide
  omega

/-- C10: when the improved and draft fields are empty, the shim never
returns the `search_results` field as the article: it returns either
the fallback output or the diagnostic message. -/
theorem no_search_leak (r : RunResult)
    (h1 : improvedOf r = "") (h2 : postOf r = "")
    (h3 : searchOf r ≠ "") :
    extract_output r = fallbackOf r ∨ extract_output r = diagnosticOf r := by
  by_cases hf : fallbackOf r = ""
  · right; simp [extract_output, h1, h2, hf]
  · left; simp [extract_output, h1, h2, hf]

/-- C10 witness: empty article fields but non-empty search results: the
returned string is the response, not the stored search results. -/
theorem no_search_leak_witness :
    extract_output ⟨some [("search_results", "S"), ("post_article_content", ""),
        ("improved_post_article", "")], ResponseAttr.str "C", "Z"⟩ =
      fallbackOf ⟨some [("search_results", "S"), ("post_article_content", ""),
        ("improved_post_article", "")], ResponseAttr.str "C", "Z"⟩ ∨
    extract_output ⟨some [("search_results", "S"), ("post_article_content", ""),
        ("improved_post_article", "")], ResponseAttr.str "C", "Z"⟩ =
      diagnosticOf ⟨some [("search_results", "S"), ("post_article_content", ""),
        ("improved_post_article", "")], ResponseAttr.str "C", "Z"⟩ :=
  no_search_leak _ (by decide) (by decide) (by decide)
